import Mathlib

/-!
Shallow embedding of the search core of the multi-agent research pipeline.

The embedding covers, faithfully to the Python source:
  * the data model of `src/agents/models.py` (`SearchProvider`,
    `TavilySearchResult`, `SerpSearchResult`, `SearchResults`, `EmailDraft`,
    `AgentResponse`, `SearchError`);
  * the two provider clients `TavilySearchTool.search`
    (src/tools/tavily_search.py) and `SerpSearchTool.search`
    (src/tools/serp_search.py), with the HTTP layer abstracted into an
    `Except String response` value: `Except.error msg` stands for any of the
    transport failures the client collapses into one provider error
    (non-2xx status, timeout, connection error, malformed body), and
    `Except.ok data` stands for a parsed 200 response body;
  * the orchestrator `intelligent_search` of `src/agents/research_agent.py`
    with its three strategy branches, provider-call counting made explicit;
  * `run_research_agent` (src/agents/research_agent.py) and
    `run_email_agent` (src/agents/email_agent.py), with the LLM agent call
    and the Gmail draft call abstracted into `Except` outcome parameters.

Wall-clock measurements (`time.time()` differences) are nondeterministic
inputs and are modelled as `Rat` parameters; the `datetime.now()` timestamp
field of `SearchResults` is omitted because nothing reads it.
-/

namespace Pipeline

/-- `SearchProvider` enum from src/agents/models.py. -/
inductive SearchProvider where
  | tavily
  | serp
deriving DecidableEq

/-- `TavilySearchResult` from src/agents/models.py; the float relevance
score is modelled as `Rat`. -/
structure TavilySearchResult where
  title : String
  url : String
  content : String
  score : Rat
  published_date : Option String
  raw_content : Option String
  provider : SearchProvider
deriving DecidableEq

/-- `SerpSearchResult` from src/agents/models.py. -/
structure SerpSearchResult where
  title : String
  url : String
  snippet : String
  position : Nat
  displayed_link : Option String
  cached_page_link : Option String
  provider : SearchProvider
deriving DecidableEq

/-- The `Union[TavilySearchResult, SerpSearchResult]` element type of
`SearchResults.results`. -/
inductive SearchResult where
  | tavilyR : TavilySearchResult → SearchResult
  | serpR : SerpSearchResult → SearchResult
deriving DecidableEq

/-- Shared `url` accessor over the union of result shapes. -/
def SearchResult.url : SearchResult → String
  | SearchResult.tavilyR t => t.url
  | SearchResult.serpR s => s.url

/-- Shared `title` accessor over the union of result shapes. -/
def SearchResult.title : SearchResult → String
  | SearchResult.tavilyR t => t.title
  | SearchResult.serpR s => s.title

/-- Shared `provider` accessor over the union of result shapes. -/
def SearchResult.provider : SearchResult → SearchProvider
  | SearchResult.tavilyR t => t.provider
  | SearchResult.serpR s => s.provider

/-- `SearchResults` envelope from src/agents/models.py (the `timestamp`
field is omitted: no code under verification reads it). -/
structure SearchResults where
  query : String
  results : List SearchResult
  total_results : Nat
  search_time : Rat
  providers_used : List SearchProvider
  ai_summary : Option String
deriving DecidableEq

/-- `SearchError` from src/agents/models.py (an exception class; modelled
as the data it carries).  `TavilyAPIError m c` is `⟨m, some .tavily, c⟩`
and `SerpAPIError m c` is `⟨m, some .serp, c⟩`. -/
structure SearchError where
  message : String
  provider : Option SearchProvider
  status_code : Option Nat
deriving DecidableEq

/-- One raw item of a Tavily 200 response body (`data["results"][i]`);
every field is optional, mirroring `result.get(...)` access. -/
structure TavilyRawItem where
  title : Option String
  url : Option String
  content : Option String
  score : Option Rat
  published_date : Option String
  raw_content : Option String
deriving DecidableEq

/-- A parsed Tavily 200 response body: `data.get("results", [])` and
`data.get("answer")`. -/
structure TavilyResponse where
  results : List TavilyRawItem
  answer : Option String
deriving DecidableEq

/-- One raw item of a SerpAPI `organic_results` entry. -/
structure SerpRawItem where
  title : Option String
  link : Option String
  snippet : Option String
  position : Option Nat
  displayed_link : Option String
  cached_page_link : Option String
deriving DecidableEq

/-- A parsed SerpAPI 200 response body: the optional `"error"` key checked
at src/tools/serp_search.py:115 and `data.get("organic_results", [])`. -/
structure SerpResponse where
  error : Option String
  organic_results : List SerpRawItem
deriving DecidableEq

namespace TavilySearchTool

/-- The result cap placed in the outbound request payload,
`min(max_results, 50)` (src/tools/tavily_search.py:75). -/
def requestedMax (max_results : Nat) : Nat := min max_results 50

/-- Conversion of one raw Tavily item into `TavilySearchResult`
(src/tools/tavily_search.py:109-117): missing optional fields default to
empty / 0.0 / absent. -/
def toResult (raw : TavilyRawItem) : TavilySearchResult :=
  { title := raw.title.getD ""
    url := raw.url.getD ""
    content := raw.content.getD ""
    score := raw.score.getD 0
    published_date := raw.published_date
    raw_content := raw.raw_content
    provider := SearchProvider.tavily }

/-- `TavilySearchTool.search` (src/tools/tavily_search.py:37-147).  The
single outbound HTTP call is abstracted by `backend`: `Except.error msg`
covers the non-200, timeout, transport and malformed-body paths (all of
which raise `TavilyAPIError`), `Except.ok data` a parsed 200 body.
`elapsed` is the measured `time.time() - start_time`. -/
def search (query : String) (include_answer : Bool)
    (backend : Except String TavilyResponse) (elapsed : Rat) :
    Except SearchError SearchResults :=
  match backend with
  | Except.error msg => Except.error ⟨msg, some SearchProvider.tavily, none⟩
  | Except.ok data =>
      let results := data.results.map toResult
      Except.ok
        { query := query
          results := results.map SearchResult.tavilyR
          total_results := results.length
          search_time := elapsed
          providers_used := [SearchProvider.tavily]
          ai_summary := if include_answer then data.answer else none }

end TavilySearchTool

namespace SerpSearchTool

/-- The result cap placed in the outbound request,
`min(max_results, 100)` (src/tools/serp_search.py:73). -/
def requestedMax (max_results : Nat) : Nat := min max_results 100

/-- Conversion of the `i`-th raw organic result into `SerpSearchResult`
(src/tools/serp_search.py:124-134); `position` defaults to `i + 1`. -/
def toResult (i : Nat) (raw : SerpRawItem) : SerpSearchResult :=
  { title := raw.title.getD ""
    url := raw.link.getD ""
    snippet := raw.snippet.getD ""
    position := raw.position.getD (i + 1)
    displayed_link := raw.displayed_link
    cached_page_link := raw.cached_page_link
    provider := SearchProvider.serp }

/-- `SerpSearchTool._generate_summary` (src/tools/serp_search.py:166-188). -/
def generateSummary (results : List SerpSearchResult) : String :=
  if results.isEmpty then
    "No search results found."
  else
    let top := results.take 3
    let sources := (top.map SerpSearchResult.url).take 3
    "Found " ++ toString results.length ++ " search results." ++ " " ++
      ("Top sources: " ++ String.intercalate ", " sources)

/-- `SerpSearchTool.search` (src/tools/serp_search.py:37-164), HTTP layer
abstracted as for Tavily.  A body carrying an `"error"` key raises
`SerpAPIError` before any result is converted. -/
def search (query : String) (backend : Except String SerpResponse)
    (elapsed : Rat) : Except SearchError SearchResults :=
  match backend with
  | Except.error msg => Except.error ⟨msg, some SearchProvider.serp, none⟩
  | Except.ok data =>
      match data.error with
      | some e => Except.error ⟨"SerpAPI error: " ++ e, some SearchProvider.serp, none⟩
      | none =>
          let results := data.organic_results.enum.map (fun p => toResult p.1 p.2)
          Except.ok
            { query := query
              results := results.map SearchResult.serpR
              total_results := results.length
              search_time := elapsed
              providers_used := [SearchProvider.serp]
              ai_summary := if results.isEmpty then none else some (generateSummary results) }

end SerpSearchTool

/-- The request-scoped dependencies of `intelligent_search`
(`ResearchAgentDeps`, src/agents/research_agent.py:32-52).  A tool field is
`none` exactly when the corresponding API key is absent (the tool is then
never constructed); `some backend` carries the abstracted behaviour the
configured tool's single HTTP call would exhibit in this run.  The
`*_elapsed` fields are the wall-clock durations the tools would measure. -/
structure ResearchAgentDeps where
  tavily_tool : Option (Except String TavilyResponse)
  serp_tool : Option (Except String SerpResponse)
  tavily_elapsed : Rat
  serp_elapsed : Rat

/-- The initial `SearchResults` value built at
src/agents/research_agent.py:87-93 before any provider is attempted. -/
def initialResults (query : String) : SearchResults :=
  { query := query
    results := []
    total_results := 0
    search_time := 0
    providers_used := []
    ai_summary := none }

/-- Outcome of one `intelligent_search` run: the returned envelope or the
raised `SearchError`, together with how many times each provider client's
`search` coroutine was awaited. -/
structure SearchRun where
  result : Except SearchError SearchResults
  tavily_calls : Nat
  serp_calls : Nat

/-- The `available_providers` list built at
src/agents/research_agent.py:145-149 from the configured tools. -/
def availableProviders (deps : ResearchAgentDeps) : List String :=
  (if deps.tavily_tool.isSome then ["Tavily"] else []) ++
    (if deps.serp_tool.isSome then ["SerpAPI"] else [])

/-- The `SearchError` raised at src/agents/research_agent.py:150-154 when
the intelligent branch ends with an empty result list and no provider
exception was in flight. -/
def noResultsError (deps : ResearchAgentDeps) : SearchError :=
  if (availableProviders deps).isEmpty then
    ⟨"No search providers configured", none, none⟩
  else
    ⟨"All configured providers failed: " ++
      String.intercalate ", " (availableProviders deps), none, none⟩

/-- The Tavily phase of the intelligent branch
(src/agents/research_agent.py:118-129): attempt Tavily when configured,
catch any exception (leaving `search_results` at its initial value), and
record whether the client was invoked. -/
def afterTavily (deps : ResearchAgentDeps) (query : String) :
    SearchResults × Nat :=
  match deps.tavily_tool with
  | none => (initialResults query, 0)
  | some b =>
      match TavilySearchTool.search query true b deps.tavily_elapsed with
      | Except.error _ => (initialResults query, 1)
      | Except.ok r => (r, 1)

/-- The fallback-and-final-check tail of the intelligent branch
(src/agents/research_agent.py:131-154), entered with an empty
`search_results`: attempt SerpAPI when configured (its exception raises
the fixed `"All search providers failed: Tavily and SerpAPI errors"`
message); a still-empty result list raises `noResultsError`.  `tcalls`
records how often the Tavily client was already invoked. -/
def serpFallback (deps : ResearchAgentDeps) (query : String)
    (tcalls : Nat) : SearchRun :=
  match deps.serp_tool with
  | some b =>
      match SerpSearchTool.search query b deps.serp_elapsed with
      | Except.error _ =>
          ⟨Except.error
            ⟨"All search providers failed: Tavily and SerpAPI errors",
              none, none⟩, tcalls, 1⟩
      | Except.ok r =>
          if r.results.isEmpty then
            ⟨Except.error (noResultsError deps), tcalls, 1⟩
          else
            ⟨Except.ok r, tcalls, 1⟩
  | none => ⟨Except.error (noResultsError deps), tcalls, 0⟩

/-- The `intelligent` (default) strategy branch of `intelligent_search`
(src/agents/research_agent.py:116-154): Tavily first; on failure or empty
results the `serpFallback` tail. -/
def intelligentBranch (deps : ResearchAgentDeps) (query : String) :
    SearchRun :=
  let sr := (afterTavily deps query).1
  let tcalls := (afterTavily deps query).2
  if sr.results.isEmpty then serpFallback deps query tcalls
  else ⟨Except.ok sr, tcalls, 0⟩

/-- The `tavily_only` strategy branch
(src/agents/research_agent.py:98-106): a missing tool raises the
configuration error, a tool exception propagates (it is a `SearchError`
subclass, re-raised by the `except SearchError` handler), SerpAPI is never
touched. -/
def tavilyOnlyBranch (deps : ResearchAgentDeps) (query : String) :
    SearchRun :=
  match deps.tavily_tool with
  | none =>
      ⟨Except.error ⟨"Tavily API key not configured", none, none⟩, 0, 0⟩
  | some b =>
      match TavilySearchTool.search query true b deps.tavily_elapsed with
      | Except.error e => ⟨Except.error e, 1, 0⟩
      | Except.ok r => ⟨Except.ok r, 1, 0⟩

/-- The `serp_only` strategy branch
(src/agents/research_agent.py:108-114), symmetric to `tavily_only`. -/
def serpOnlyBranch (deps : ResearchAgentDeps) (query : String) :
    SearchRun :=
  match deps.serp_tool with
  | none =>
      ⟨Except.error ⟨"SerpAPI key not configured", none, none⟩, 0, 0⟩
  | some b =>
      match SerpSearchTool.search query b deps.serp_elapsed with
      | Except.error e => ⟨Except.error e, 0, 1⟩
      | Except.ok r => ⟨Except.ok r, 0, 1⟩

/-- `search_results.search_time = time.time() - start_time` at
src/agents/research_agent.py:157: the envelope that is about to be
returned gets the orchestrator-level elapsed time; a raised error is
unaffected. -/
def finalizeRun (run : SearchRun) (orch_elapsed : Rat) : SearchRun :=
  { run with
      result := run.result.map (fun r => { r with search_time := orch_elapsed }) }

/-- `intelligent_search` (src/agents/research_agent.py:64-167).  The
strategy string is dispatched exactly as in the source: the literal
`"tavily_only"`, then the literal `"serp_only"`, and every other value
falls into the intelligent branch.  `orch_elapsed` is the wall-clock time
the orchestrator measures for the whole call.  `max_results` is threaded
into the outbound request payloads only (see `requestedMax`), which the
abstracted backend outcomes already incorporate, so it does not appear
here. -/
def intelligent_search (strategy : String) (deps : ResearchAgentDeps)
    (query : String) (orch_elapsed : Rat) : SearchRun :=
  finalizeRun
    (if strategy = "tavily_only" then tavilyOnlyBranch deps query
     else if strategy = "serp_only" then serpOnlyBranch deps query
     else intelligentBranch deps query)
    orch_elapsed

/-- The `response_data` dictionary assembled at
src/agents/research_agent.py:338-343. -/
structure ResearchData where
  summary : String
  search_results : SearchResults
  sources : List String
  query : String

/-- `AgentResponse` from src/agents/models.py, with the payload type made
a parameter (the source uses one `Optional[Union[...]]` field). -/
structure AgentResponse (α : Type) where
  success : Bool
  data : Option α
  message : String
  error : Option String
  execution_time : Rat
  tokens_used : Option Nat

/-- One numbered block of the `results_text` built at
src/agents/research_agent.py:289-302 (`i` is the 1-based index). -/
def resultLine (i : Nat) (r : SearchResult) : String :=
  match r with
  | SearchResult.tavilyR t =>
      "\n" ++ toString i ++ ". **" ++ t.title ++ "**\n" ++
        "   Source: " ++ t.url ++ "\n" ++
        "   Content: " ++ t.content ++ "\n" ++
        (match t.published_date with
         | some d => "   Published: " ++ d ++ "\n"
         | none => "")
  | SearchResult.serpR s =>
      "\n" ++ toString i ++ ". **" ++ s.title ++ "**\n" ++
        "   Source: " ++ s.url ++ "\n" ++
        "   Snippet: " ++ s.snippet ++ "\n"

/-- The full `results_text` accumulated over `enumerate(results, 1)`. -/
def resultsText (rs : List SearchResult) : String :=
  String.join (rs.enum.map (fun p => resultLine (p.1 + 1) p.2))

/-- `run_research_agent` (src/agents/research_agent.py:237-377).  The
search step is the real `intelligent_search` above; the LLM summarization
call `research_agent.run(...)` is abstracted as `agentOutcome`
(`Except.ok (text, tokens)` for a completed run, `Except.error msg` for a
raised exception).  `elapsed` is the operation-level wall-clock time. -/
def run_research_agent (strategy : String) (deps : ResearchAgentDeps)
    (query : String) (create_summary : Bool)
    (agentOutcome : Except String (String × Option Nat))
    (orch_elapsed elapsed : Rat) : AgentResponse ResearchData :=
  match (intelligent_search strategy deps query orch_elapsed).result with
  | Except.error e =>
      { success := false
        data := none
        message := "Research failed due to search error"
        error := some ("Search failed: " ++ e.message)
        execution_time := elapsed
        tokens_used := none }
  | Except.ok sr =>
      if sr.results.isEmpty then
        { success := false
          data := none
          message := "No search results found"
          error := some "Search returned no results"
          execution_time := elapsed
          tokens_used := none }
      else
        let sources := sr.results.map SearchResult.url
        if create_summary then
          match agentOutcome with
          | Except.error m =>
              { success := false
                data := none
                message := "Research failed due to unexpected error"
                error := some ("Research agent failed: " ++ m)
                execution_time := elapsed
                tokens_used := none }
          | Except.ok (text, toks) =>
              { success := true
                data := some
                  { summary := text
                    search_results := sr
                    sources := sources
                    query := query }
                message := "Research completed successfully with " ++
                  toString sr.results.length ++ " sources"
                error := none
                execution_time := elapsed
                tokens_used := toks }
        else
          { success := true
            data := some
              { summary := resultsText sr.results
                search_results := sr
                sources := sources
                query := query }
            message := "Research completed successfully with " ++
              toString sr.results.length ++ " sources"
            error := none
            execution_time := elapsed
            tokens_used := none }

/-- `EmailDraft` from src/agents/models.py (`created_at` omitted: nothing
under verification reads it; the `to` field is renamed `recipients`
because `to` is a reserved token in Lean). -/
structure EmailDraft where
  recipients : List String
  subject : String
  body : String
  cc : Option (List String)
  bcc : Option (List String)
  attachments : Option (List String)
  draft_id : Option String
deriving DecidableEq

/-- `create_gmail_draft` (src/agents/email_agent.py:42-74): the Gmail API
call is abstracted as `gmailOutcome` (`Except.ok draftId` on success, any
exception as `Except.error`); on success the tool returns the status
string embedding the draft id. -/
def create_gmail_draft (gmailOutcome : Except String String) :
    Except String String :=
  match gmailOutcome with
  | Except.error m => Except.error m
  | Except.ok did => Except.ok ("Gmail draft created with ID: " ++ did)

/-- `run_email_agent` (src/agents/email_agent.py:107-204).  The LLM email
generation `email_agent.run(...)` is abstracted as `agentOutcome`
(`Except.ok (draft?, tokens)`), the Gmail call as `gmailOutcome`.  After a
generated draft, draft creation is attempted; its failure is caught and
only logged (`except` at src/agents/email_agent.py:180-181), and on its
success the id is extracted via `split(": ")[-1]`. -/
def run_email_agent
    (agentOutcome : Except String (Option EmailDraft × Option Nat))
    (gmailOutcome : Except String String) (elapsed : Rat) :
    AgentResponse EmailDraft :=
  match agentOutcome with
  | Except.error m =>
      { success := false
        data := none
        message := "Failed to create email draft"
        error := some ("Email agent failed: " ++ m)
        execution_time := elapsed
        tokens_used := none }
  | Except.ok (draftData, toks) =>
      let finalData : Option EmailDraft :=
        match draftData with
        | none => none
        | some d =>
            match create_gmail_draft gmailOutcome with
            | Except.error _ => some d
            | Except.ok resp =>
                some { d with draft_id := some ((resp.splitOn ": ").getLastD "") }
      { success := true
        data := finalData
        message := "Email draft created successfully"
        error := none
        execution_time := elapsed
        tokens_used := toks }

/-! ### Helper lemmas on the dispatcher and the branches -/

theorem intelligent_search_eq_tavily_only (deps : ResearchAgentDeps)
    (q : String) (t : Rat) :
    intelligent_search "tavily_only" deps q t =
      finalizeRun (tavilyOnlyBranch deps q) t := rfl

theorem intelligent_search_eq_serp_only (deps : ResearchAgentDeps)
    (q : String) (t : Rat) :
    intelligent_search "serp_only" deps q t =
      finalizeRun (serpOnlyBranch deps q) t := rfl

theorem intelligent_search_eq_intelligent (s : String)
    (h1 : s ≠ "tavily_only") (h2 : s ≠ "serp_only")
    (deps : ResearchAgentDeps) (q : String) (t : Rat) :
    intelligent_search s deps q t =
      finalizeRun (intelligentBranch deps q) t := by
  simp only [intelligent_search, if_neg h1, if_neg h2]

theorem finalizeRun_serp_calls (run : SearchRun) (t : Rat) :
    (finalizeRun run t).serp_calls = run.serp_calls := rfl

theorem finalizeRun_tavily_calls (run : SearchRun) (t : Rat) :
    (finalizeRun run t).tavily_calls = run.tavily_calls := rfl

theorem finalizeRun_error (run : SearchRun) (t : Rat) (e : SearchError)
    (h : run.result = Except.error e) :
    (finalizeRun run t).result = Except.error e := by
  simp only [finalizeRun, h, Except.map]

theorem finalizeRun_ok (run : SearchRun) (t : Rat) (r : SearchResults)
    (h : run.result = Except.ok r) :
    (finalizeRun run t).result = Except.ok { r with search_time := t } := by
  simp only [finalizeRun, h, Except.map]

/-- An `Except.ok` out of `finalizeRun` comes from an `Except.ok` of the
underlying run, with only `search_time` rewritten. -/
theorem finalizeRun_ok_inv (run : SearchRun) (t : Rat) (env : SearchResults)
    (h : (finalizeRun run t).result = Except.ok env) :
    ∃ r, run.result = Except.ok r ∧ env = { r with search_time := t } := by
  rcases hr : run.result with e | r
  · rw [finalizeRun_error run t e hr] at h
    exact absurd h (by simp)
  · rw [finalizeRun_ok run t r hr] at h
    exact ⟨r, rfl, (Except.ok.injEq _ _).mp h |>.symm⟩

/-- Every envelope the Tavily client constructs is tagged with the Tavily
provider, on the envelope and on each item. -/
theorem tavily_search_ok_shape (q : String) (inc : Bool)
    (b : Except String TavilyResponse) (el : Rat) (env : SearchResults)
    (h : TavilySearchTool.search q inc b el = Except.ok env) :
    env.providers_used = [SearchProvider.tavily] ∧
      ∀ r ∈ env.results, r.provider = SearchProvider.tavily := by
  rcases b with m | data
  · exact absurd h (by simp [TavilySearchTool.search])
  · simp only [TavilySearchTool.search] at h
    obtain rfl := (Except.ok.injEq _ _).mp h
    refine ⟨rfl, ?_⟩
    intro r hr
    simp only [List.mem_map] at hr
    obtain ⟨t', ⟨raw, _, rfl⟩, rfl⟩ := hr
    rfl

/-- Every envelope the SerpAPI client constructs is tagged with the Serp
provider, on the envelope and on each item. -/
theorem serp_search_ok_shape (q : String)
    (b : Except String SerpResponse) (el : Rat) (env : SearchResults)
    (h : SerpSearchTool.search q b el = Except.ok env) :
    env.providers_used = [SearchProvider.serp] ∧
      ∀ r ∈ env.results, r.provider = SearchProvider.serp := by
  rcases b with m | data
  · exact absurd h (by simp [SerpSearchTool.search])
  · rcases he : data.error with _ | e
    · simp only [SerpSearchTool.search, he] at h
      obtain rfl := (Except.ok.injEq _ _).mp h
      refine ⟨rfl, ?_⟩
      intro r hr
      simp only [List.mem_map] at hr
      obtain ⟨s', ⟨p, _, rfl⟩, rfl⟩ := hr
      rfl
    · exact absurd h (by simp [SerpSearchTool.search, he])

/-- An `Except.ok` out of the intelligent branch is either the Tavily
tool's envelope (with non-empty results) or the SerpAPI tool's envelope
(with non-empty results). -/
theorem serpFallback_ok_inv (deps : ResearchAgentDeps) (q : String)
    (tcalls : Nat) (r : SearchResults)
    (h : (serpFallback deps q tcalls).result = Except.ok r) :
    r.results ≠ [] ∧
      ∃ sb, deps.serp_tool = some sb ∧
        SerpSearchTool.search q sb deps.serp_elapsed = Except.ok r := by
  rcases hst : deps.serp_tool with _ | sb
  · exact absurd h (by simp [serpFallback, hst])
  · rcases hss : SerpSearchTool.search q sb deps.serp_elapsed with m | sr
    · exact absurd h (by simp [serpFallback, hst, hss])
    · by_cases hre : sr.results.isEmpty
      · exact absurd h (by simp [serpFallback, hst, hss, hre])
      · have hsr : sr = r := by simpa [serpFallback, hst, hss, hre] using h
        subst hsr
        exact ⟨by simpa [List.isEmpty_iff] using hre, sb, rfl, hss⟩

/-- A non-empty outcome of the Tavily phase is the Tavily tool's own
envelope. -/
theorem afterTavily_nonempty_inv (deps : ResearchAgentDeps) (q : String)
    (h : ((afterTavily deps q).1).results.isEmpty = false) :
    ∃ tb, deps.tavily_tool = some tb ∧
      TavilySearchTool.search q true tb deps.tavily_elapsed =
        Except.ok (afterTavily deps q).1 := by
  rcases hta : deps.tavily_tool with _ | tb
  · exact absurd h (by simp [afterTavily, hta, initialResults])
  · rcases hts : TavilySearchTool.search q true tb deps.tavily_elapsed with e | rr
    · exact absurd h (by simp [afterTavily, hta, hts, initialResults])
    · exact ⟨tb, rfl, by simp [afterTavily, hta, hts]⟩

theorem intelligentBranch_ok_inv (deps : ResearchAgentDeps) (q : String)
    (r : SearchResults)
    (h : (intelligentBranch deps q).result = Except.ok r) :
    r.results ≠ [] ∧
      ((∃ tb, deps.tavily_tool = some tb ∧
          TavilySearchTool.search q true tb deps.tavily_elapsed = Except.ok r) ∨
       (∃ sb, deps.serp_tool = some sb ∧
          SerpSearchTool.search q sb deps.serp_elapsed = Except.ok r)) := by
  simp only [intelligentBranch] at h
  by_cases hsr : ((afterTavily deps q).1).results.isEmpty
  · rw [if_pos hsr] at h
    obtain ⟨hne, hs⟩ := serpFallback_ok_inv deps q _ r h
    exact ⟨hne, Or.inr hs⟩
  · rw [if_neg hsr] at h
    obtain rfl : (afterTavily deps q).1 = r := by simpa using h
    obtain ⟨tb, hta, hts⟩ :=
      afterTavily_nonempty_inv deps q (by simpa using hsr)
    exact ⟨by simpa [List.isEmpty_iff] using hsr, Or.inl ⟨tb, hta, hts⟩⟩

/-- An `Except.ok` out of the `tavily_only` branch is the Tavily tool's
envelope. -/
theorem tavilyOnlyBranch_ok_inv (deps : ResearchAgentDeps) (q : String)
    (r : SearchResults)
    (h : (tavilyOnlyBranch deps q).result = Except.ok r) :
    ∃ tb, deps.tavily_tool = some tb ∧
      TavilySearchTool.search q true tb deps.tavily_elapsed = Except.ok r := by
  rcases hta : deps.tavily_tool with _ | tb
  · exact absurd h (by simp [tavilyOnlyBranch, hta])
  · rcases hts : TavilySearchTool.search q true tb deps.tavily_elapsed with e | rr
    · exact absurd h (by simp [tavilyOnlyBranch, hta, hts])
    · have hr : rr = r := by simpa [tavilyOnlyBranch, hta, hts] using h
      exact ⟨tb, rfl, hr ▸ hts⟩

/-- An `Except.ok` out of the `serp_only` branch is the SerpAPI tool's
envelope. -/
theorem serpOnlyBranch_ok_inv (deps : ResearchAgentDeps) (q : String)
    (r : SearchResults)
    (h : (serpOnlyBranch deps q).result = Except.ok r) :
    ∃ sb, deps.serp_tool = some sb ∧
      SerpSearchTool.search q sb deps.serp_elapsed = Except.ok r := by
  rcases hst : deps.serp_tool with _ | sb
  · exact absurd h (by simp [serpOnlyBranch, hst])
  · rcases hss : SerpSearchTool.search q sb deps.serp_elapsed with e | rr
    · exact absurd h (by simp [serpOnlyBranch, hst, hss])
    · have hr : rr = r := by simpa [serpOnlyBranch, hst, hss] using h
      exact ⟨sb, rfl, hr ▸ hss⟩

/-- After a failed or empty Tavily attempt the working `search_results`
value has an empty result list. -/
theorem afterTavily_isEmpty_of_fail (deps : ResearchAgentDeps) (q : String)
    (tb : Except String TavilyResponse) (hT : deps.tavily_tool = some tb)
    (hfail :
      (∃ e, TavilySearchTool.search q true tb deps.tavily_elapsed =
        Except.error e) ∨
      (∃ rr, TavilySearchTool.search q true tb deps.tavily_elapsed =
        Except.ok rr ∧ rr.results = [])) :
    ((afterTavily deps q).1).results.isEmpty = true := by
  rcases hfail with ⟨e, he⟩ | ⟨rr, hok, hnil⟩
  · simp [afterTavily, hT, he, initialResults]
  · simp [afterTavily, hT, hok, hnil]

/-- With SerpAPI configured, the fallback tail always invokes the SerpAPI
client exactly once. -/
theorem serpFallback_serp_calls_configured (deps : ResearchAgentDeps)
    (q : String) (tcalls : Nat) (sb : Except String SerpResponse)
    (hS : deps.serp_tool = some sb) :
    (serpFallback deps q tcalls).serp_calls = 1 := by
  rcases hss : SerpSearchTool.search q sb deps.serp_elapsed with m | sr
  · simp [serpFallback, hS, hss]
  · by_cases hre : sr.results.isEmpty
    · simp [serpFallback, hS, hss, hre]
    · simp [serpFallback, hS, hss, hre]

/-- For a single-provider envelope shape, membership in `providers_used`
coincides with being the provenance of some result, once results are
non-empty. -/
theorem providers_exact_of_shape (env : SearchResults) (x : SearchProvider)
    (hpu : env.providers_used = [x])
    (hall : ∀ r ∈ env.results, SearchResult.provider r = x)
    (hne : env.results ≠ []) :
    ∀ p, p ∈ env.providers_used ↔
      ∃ r ∈ env.results, SearchResult.provider r = p := by
  intro p
  rw [hpu]
  constructor
  · intro hp
    rcases List.exists_mem_of_ne_nil env.results hne with ⟨r0, hr0⟩
    simp only [List.mem_singleton] at hp
    exact ⟨r0, hr0, by rw [hall r0 hr0, hp]⟩
  · rintro ⟨r0, hr0, hpr⟩
    simp only [List.mem_singleton]
    rw [← hpr, hall r0 hr0]

/-- A concrete healthy raw SerpAPI organic result. -/
def serpRawT : SerpRawItem :=
  { title := some "T"
    link := some "http://serp.example/a"
    snippet := some "s"
    position := some 1
    displayed_link := none
    cached_page_link := none }

/-- Concrete fixture: Tavily configured but failing, SerpAPI configured
and healthy. -/
def tavilyDownSerpUpDeps : ResearchAgentDeps :=
  { tavily_tool := some (Except.error "Tavily API returned 500")
    serp_tool := some (Except.ok ⟨none, [serpRawT]⟩)
    tavily_elapsed := 0
    serp_elapsed := 0 }

/-! ### C1 -/

/-- C1: under the `intelligent` strategy, whenever the configured Tavily
attempt raises (any exception, timeouts included, is caught by the same
handler) or returns an empty result list, and SerpAPI is configured,
the SerpAPI client is invoked exactly once and any returned envelope
carries exactly SerpAPI's results. -/
theorem C1_fallback_attempts_serp (deps : ResearchAgentDeps) (q : String)
    (t : Rat) (tb : Except String TavilyResponse)
    (sb : Except String SerpResponse)
    (hT : deps.tavily_tool = some tb) (hS : deps.serp_tool = some sb)
    (hfail :
      (∃ e, TavilySearchTool.search q true tb deps.tavily_elapsed =
        Except.error e) ∨
      (∃ rr, TavilySearchTool.search q true tb deps.tavily_elapsed =
        Except.ok rr ∧ rr.results = [])) :
    (intelligent_search "intelligent" deps q t).serp_calls = 1 ∧
    ∀ env, (intelligent_search "intelligent" deps q t).result = Except.ok env →
      ∃ senv, SerpSearchTool.search q sb deps.serp_elapsed = Except.ok senv ∧
        env.results = senv.results := by
  have hbr : intelligentBranch deps q =
      serpFallback deps q (afterTavily deps q).2 := by
    simp only [intelligentBranch,
      if_pos (afterTavily_isEmpty_of_fail deps q tb hT hfail)]
  constructor
  · rw [intelligent_search_eq_intelligent "intelligent" (by decide) (by decide),
      finalizeRun_serp_calls, hbr]
    exact serpFallback_serp_calls_configured deps q _ sb hS
  · intro env h
    rw [intelligent_search_eq_intelligent "intelligent"
      (by decide) (by decide)] at h
    obtain ⟨r, hr, rfl⟩ := finalizeRun_ok_inv _ _ _ h
    rw [hbr] at hr
    obtain ⟨_, sb', hsb', hss⟩ := serpFallback_ok_inv deps q _ r hr
    rw [hS] at hsb'
    obtain rfl : sb = sb' := by injection hsb'
    exact ⟨r, hss, rfl⟩

/-- Witness for C1: Tavily raises, SerpAPI healthy with one result. -/
theorem C1_fallback_attempts_serp_witness :
    (intelligent_search "intelligent" tavilyDownSerpUpDeps "q" 0).serp_calls = 1 ∧
    ∀ env,
      (intelligent_search "intelligent" tavilyDownSerpUpDeps "q" 0).result =
        Except.ok env →
      ∃ senv,
        SerpSearchTool.search "q" (Except.ok ⟨none, [serpRawT]⟩) 0 =
          Except.ok senv ∧ env.results = senv.results :=
  C1_fallback_attempts_serp tavilyDownSerpUpDeps "q" 0
    (Except.error "Tavily API returned 500") (Except.ok ⟨none, [serpRawT]⟩)
    (by rfl) (by rfl)
    (Or.inl ⟨⟨"Tavily API returned 500", some SearchProvider.tavily, none⟩, by rfl⟩)

/-! ### C4 -/

/-- C4: on any successful `intelligent_search` run, `providers_used` is
exactly the singleton of the provider whose envelope was returned — every
result carries that provenance, and once results are non-empty a provider
is listed iff one of the returned results is its — so a provider attempted
but discarded by fallback never appears; and in the A-throws-B-succeeds
scenario each client is invoked exactly once and
`providers_used = [serp]`. -/
theorem C4_providers_used_exact :
    (∀ (strategy : String) (deps : ResearchAgentDeps) (q : String) (t : Rat)
        (env : SearchResults),
      (intelligent_search strategy deps q t).result = Except.ok env →
      ((env.providers_used = [SearchProvider.tavily] ∧
          ∀ r ∈ env.results, SearchResult.provider r = SearchProvider.tavily) ∨
       (env.providers_used = [SearchProvider.serp] ∧
          ∀ r ∈ env.results, SearchResult.provider r = SearchProvider.serp)) ∧
      (env.results ≠ [] → ∀ p, p ∈ env.providers_used ↔
          ∃ r ∈ env.results, SearchResult.provider r = p)) ∧
    (∀ (deps : ResearchAgentDeps) (q : String) (t : Rat) (m : String)
        (sb : Except String SerpResponse) (senv : SearchResults),
      deps.tavily_tool = some (Except.error m) →
      deps.serp_tool = some sb →
      SerpSearchTool.search q sb deps.serp_elapsed = Except.ok senv →
      senv.results ≠ [] →
      (intelligent_search "intelligent" deps q t).tavily_calls = 1 ∧
      (intelligent_search "intelligent" deps q t).serp_calls = 1 ∧
      (intelligent_search "intelligent" deps q t).result =
        Except.ok { senv with search_time := t } ∧
      { senv with search_time := t }.providers_used = [SearchProvider.serp]) := by
  constructor
  · intro strategy deps q t env h
    have hshape :
        (env.providers_used = [SearchProvider.tavily] ∧
          ∀ r ∈ env.results, SearchResult.provider r = SearchProvider.tavily) ∨
        (env.providers_used = [SearchProvider.serp] ∧
          ∀ r ∈ env.results, SearchResult.provider r = SearchProvider.serp) := by
      by_cases h1 : strategy = "tavily_only"
      · subst h1
        rw [intelligent_search_eq_tavily_only] at h
        obtain ⟨r, hr, rfl⟩ := finalizeRun_ok_inv _ _ _ h
        obtain ⟨tb, _, hts⟩ := tavilyOnlyBranch_ok_inv deps q r hr
        obtain ⟨hpu, hall⟩ := tavily_search_ok_shape _ _ _ _ r hts
        exact Or.inl ⟨hpu, hall⟩
      · by_cases h2 : strategy = "serp_only"
        · subst h2
          rw [intelligent_search_eq_serp_only] at h
          obtain ⟨r, hr, rfl⟩ := finalizeRun_ok_inv _ _ _ h
          obtain ⟨sb, _, hss⟩ := serpOnlyBranch_ok_inv deps q r hr
          obtain ⟨hpu, hall⟩ := serp_search_ok_shape _ _ _ r hss
          exact Or.inr ⟨hpu, hall⟩
        · rw [intelligent_search_eq_intelligent strategy h1 h2] at h
          obtain ⟨r, hr, rfl⟩ := finalizeRun_ok_inv _ _ _ h
          rcases (intelligentBranch_ok_inv deps q r hr).2 with
            ⟨tb, _, hts⟩ | ⟨sb, _, hss⟩
          · obtain ⟨hpu, hall⟩ := tavily_search_ok_shape _ _ _ _ r hts
            exact Or.inl ⟨hpu, hall⟩
          · obtain ⟨hpu, hall⟩ := serp_search_ok_shape _ _ _ r hss
            exact Or.inr ⟨hpu, hall⟩
    refine ⟨hshape, ?_⟩
    intro hne
    rcases hshape with ⟨hpu, hall⟩ | ⟨hpu, hall⟩
    · exact providers_exact_of_shape env SearchProvider.tavily hpu hall hne
    · exact providers_exact_of_shape env SearchProvider.serp hpu hall hne
  · intro deps q t m sb senv hT hS hss hne
    have hie : senv.results.isEmpty = false :=
      Bool.eq_false_iff.mpr (fun hc => hne (List.isEmpty_iff.mp hc))
    have hat : afterTavily deps q = (initialResults q, 1) := by
      simp [afterTavily, hT, TavilySearchTool.search]
    have hbr : intelligentBranch deps q = ⟨Except.ok senv, 1, 1⟩ := by
      simp [intelligentBranch, hat, initialResults, serpFallback, hS, hss, hie]
    have hpu := (serp_search_ok_shape q sb deps.serp_elapsed senv hss).1
    refine ⟨?_, ?_, ?_, hpu⟩
    · rw [intelligent_search_eq_intelligent "intelligent"
        (by decide) (by decide), finalizeRun_tavily_calls, hbr]
    · rw [intelligent_search_eq_intelligent "intelligent"
        (by decide) (by decide), finalizeRun_serp_calls, hbr]
    · rw [intelligent_search_eq_intelligent "intelligent"
        (by decide) (by decide)]
      exact finalizeRun_ok _ _ _ (by rw [hbr])

/-- The envelope the SerpAPI client builds from the single healthy raw
result `serpRawT`. -/
def serpEnvT : SearchResults :=
  { query := "q"
    results := [SearchResult.serpR
      { title := "T"
        url := "http://serp.example/a"
        snippet := "s"
        position := 1
        displayed_link := none
        cached_page_link := none
        provider := SearchProvider.serp }]
    total_results := 1
    search_time := 0
    providers_used := [SearchProvider.serp]
    ai_summary := some "Found 1 search results. Top sources: http://serp.example/a" }

/-- Witness for C4 at the A-throws-B-succeeds fixture. -/
theorem C4_providers_used_exact_witness :
    (intelligent_search "intelligent" tavilyDownSerpUpDeps "q" 0).tavily_calls = 1 ∧
    (intelligent_search "intelligent" tavilyDownSerpUpDeps "q" 0).serp_calls = 1 ∧
    (intelligent_search "intelligent" tavilyDownSerpUpDeps "q" 0).result =
      Except.ok { serpEnvT with search_time := 0 } ∧
    { serpEnvT with search_time := 0 }.providers_used = [SearchProvider.serp] :=
  C4_providers_used_exact.2 tavilyDownSerpUpDeps "q" 0 "Tavily API returned 500"
    (Except.ok ⟨none, [serpRawT]⟩) serpEnvT (by rfl) (by rfl) (by rfl)
    (by decide)

/-! ### C3 -/

/-- Concrete fixture refuting C3: the `tavily_only` strategy with a 200
response that carries an empty result list. -/
def emptyTavilyDeps : ResearchAgentDeps :=
  { tavily_tool := some (Except.ok ⟨[], none⟩)
    serp_tool := none
    tavily_elapsed := 0
    serp_elapsed := 0 }

/-- C3 counterexample: under `tavily_only`, a provider call that succeeds
with zero results makes `intelligent_search` return an envelope whose
results list is empty instead of raising a `SearchError` — the final
empty-results check sits only in the intelligent branch. -/
theorem C3_counterexample_empty_envelope_returned :
    (intelligent_search "tavily_only" emptyTavilyDeps "q" 0).result =
      Except.ok
        { query := "q"
          results := []
          total_results := 0
          search_time := 0
          providers_used := [SearchProvider.tavily]
          ai_summary := none } := rfl

/-- C3 (amended): under the `intelligent` strategy a run with no
non-empty result set always raises a `SearchError`; under `tavily_only`
and `serp_only` a missing key or a provider exception raises, but a
provider call succeeding with an empty result list is returned as an
empty envelope (see the counterexample). -/
theorem C3_amended_no_results_error (deps : ResearchAgentDeps)
    (q : String) (t : Rat) :
    (∀ env, (intelligent_search "intelligent" deps q t).result = Except.ok env →
        env.results ≠ []) ∧
    (deps.tavily_tool = none →
        (intelligent_search "tavily_only" deps q t).result =
          Except.error ⟨"Tavily API key not configured", none, none⟩) ∧
    (∀ b e, deps.tavily_tool = some b →
        TavilySearchTool.search q true b deps.tavily_elapsed = Except.error e →
        (intelligent_search "tavily_only" deps q t).result = Except.error e) ∧
    (deps.serp_tool = none →
        (intelligent_search "serp_only" deps q t).result =
          Except.error ⟨"SerpAPI key not configured", none, none⟩) ∧
    (∀ b e, deps.serp_tool = some b →
        SerpSearchTool.search q b deps.serp_elapsed = Except.error e →
        (intelligent_search "serp_only" deps q t).result = Except.error e) := by
  refine ⟨?_, ?_, ?_, ?_, ?_⟩
  · intro env h
    rw [intelligent_search_eq_intelligent "intelligent" (by decide) (by decide)] at h
    obtain ⟨r, hr, rfl⟩ := finalizeRun_ok_inv _ _ _ h
    exact (intelligentBranch_ok_inv deps q r hr).1
  · intro h
    rw [intelligent_search_eq_tavily_only]
    exact finalizeRun_error _ _ _ (by simp [tavilyOnlyBranch, h])
  · intro b e hb hs
    rw [intelligent_search_eq_tavily_only]
    exact finalizeRun_error _ _ _ (by simp [tavilyOnlyBranch, hb, hs])
  · intro h
    rw [intelligent_search_eq_serp_only]
    exact finalizeRun_error _ _ _ (by simp [serpOnlyBranch, h])
  · intro b e hb hs
    rw [intelligent_search_eq_serp_only]
    exact finalizeRun_error _ _ _ (by simp [serpOnlyBranch, hb, hs])

/-- Concrete fixture: no provider configured. -/
def noProviderDeps : ResearchAgentDeps :=
  { tavily_tool := none
    serp_tool := none
    tavily_elapsed := 0
    serp_elapsed := 0 }

/-- Witness for the amended C3 at concrete inputs. -/
theorem C3_amended_no_results_error_witness :
    (intelligent_search "tavily_only" noProviderDeps "q" 0).result =
        Except.error ⟨"Tavily API key not configured", none, none⟩ ∧
    (intelligent_search "serp_only" noProviderDeps "q" 0).result =
        Except.error ⟨"SerpAPI key not configured", none, none⟩ :=
  ⟨(C3_amended_no_results_error noProviderDeps "q" 0).2.1 rfl,
   (C3_amended_no_results_error noProviderDeps "q" 0).2.2.2.1 rfl⟩

/-! ### C9 -/

/-- C9: the `tavily_only` strategy never invokes the SerpAPI client; a
missing Tavily key raises the configuration `SearchError`, and a Tavily
provider failure propagates as-is, with no fallback. -/
theorem C9_tavily_only_never_calls_serp (deps : ResearchAgentDeps)
    (q : String) (t : Rat) :
    (intelligent_search "tavily_only" deps q t).serp_calls = 0 ∧
    (deps.tavily_tool = none →
        (intelligent_search "tavily_only" deps q t).result =
          Except.error ⟨"Tavily API key not configured", none, none⟩) ∧
    (∀ b e, deps.tavily_tool = some b →
        TavilySearchTool.search q true b deps.tavily_elapsed = Except.error e →
        (intelligent_search "tavily_only" deps q t).result = Except.error e) := by
  refine ⟨?_, ?_, ?_⟩
  · rw [intelligent_search_eq_tavily_only, finalizeRun_serp_calls]
    rcases htav : deps.tavily_tool with _ | b
    · simp [tavilyOnlyBranch, htav]
    · rcases hs : TavilySearchTool.search q true b deps.tavily_elapsed with e | r
      · simp [tavilyOnlyBranch, htav, hs]
      · simp [tavilyOnlyBranch, htav, hs]
  · intro h
    rw [intelligent_search_eq_tavily_only]
    exact finalizeRun_error _ _ _ (by simp [tavilyOnlyBranch, h])
  · intro b e hb hs
    rw [intelligent_search_eq_tavily_only]
    exact finalizeRun_error _ _ _ (by simp [tavilyOnlyBranch, hb, hs])

/-- Witness for C9 at a concrete input: Tavily fails, SerpAPI is healthy,
yet SerpAPI is not called and the Tavily error propagates. -/
theorem C9_tavily_only_never_calls_serp_witness :
    (intelligent_search "tavily_only" tavilyDownSerpUpDeps "q" 0).serp_calls = 0 ∧
    (intelligent_search "tavily_only" tavilyDownSerpUpDeps "q" 0).result =
      Except.error ⟨"Tavily API returned 500", some SearchProvider.tavily, none⟩ :=
  ⟨(C9_tavily_only_never_calls_serp tavilyDownSerpUpDeps "q" 0).1,
   (C9_tavily_only_never_calls_serp tavilyDownSerpUpDeps "q" 0).2.2
      (Except.error "Tavily API returned 500") _ (by rfl) (by rfl)⟩

/-! ### C10 -/

/-- C10: every strategy string other than the literals `"tavily_only"`
and `"serp_only"` — e.g. an arbitrary value passed through the n8n
integration, which assigns `settings.search_strategy` without re-running
the `Literal` validation — takes exactly the intelligent branch. -/
theorem C10_unknown_strategy_is_intelligent (s : String)
    (h1 : s ≠ "tavily_only") (h2 : s ≠ "serp_only")
    (deps : ResearchAgentDeps) (q : String) (t : Rat) :
    intelligent_search s deps q t = intelligent_search "intelligent" deps q t := by
  rw [intelligent_search_eq_intelligent s h1 h2,
    intelligent_search_eq_intelligent "intelligent" (by decide) (by decide)]

/-- Witness for C10 at a concrete unrecognized strategy string. -/
theorem C10_unknown_strategy_is_intelligent_witness :
    intelligent_search "n8n-custom-value" tavilyDownSerpUpDeps "q" 0 =
      intelligent_search "intelligent" tavilyDownSerpUpDeps "q" 0 :=
  C10_unknown_strategy_is_intelligent "n8n-custom-value" (by decide) (by decide)
    tavilyDownSerpUpDeps "q" 0

/-! ### C2 -/

/-- Concrete fixture refuting C2: Tavily unconfigured, SerpAPI configured
but raising. -/
def serpOnlyDownDeps : ResearchAgentDeps :=
  { tavily_tool := none
    serp_tool := some (Except.error "serp boom")
    tavily_elapsed := 0
    serp_elapsed := 0 }

/-- C2 counterexample: with only SerpAPI configured and SerpAPI raising,
the raised message is the fixed text naming both Tavily and SerpAPI, not
an enumeration of the configured providers (which would be exactly
`SerpAPI`). -/
theorem C2_counterexample_fixed_message_names_unconfigured :
    serpOnlyDownDeps.tavily_tool = none ∧
    availableProviders serpOnlyDownDeps = ["SerpAPI"] ∧
    (intelligent_search "intelligent" serpOnlyDownDeps "q" 0).result =
      Except.error
        ⟨"All search providers failed: Tavily and SerpAPI errors",
          none, none⟩ ∧
    "All search providers failed: Tavily and SerpAPI errors" ≠
      "All configured providers failed: SerpAPI" :=
  ⟨rfl, rfl, rfl, by decide⟩

/-- C2 (amended): when the fallback SerpAPI call raises, the message is
the fixed text `"All search providers failed: Tavily and SerpAPI errors"`
regardless of which providers are configured; the configured-provider
enumeration happens only on the no-exception empty-results path, where it
names exactly the configured providers; and the neither-configured case
raises the distinct `"No search providers configured"` message. -/
theorem C2_amended_exhaustion_messages :
    (∀ (deps : ResearchAgentDeps) (q : String) (t : Rat)
        (sb : Except String SerpResponse) (m : SearchError),
      deps.serp_tool = some sb →
      SerpSearchTool.search q sb deps.serp_elapsed = Except.error m →
      ((afterTavily deps q).1).results.isEmpty = true →
      (intelligent_search "intelligent" deps q t).result =
        Except.error
          ⟨"All search providers failed: Tavily and SerpAPI errors",
            none, none⟩) ∧
    (∀ (deps : ResearchAgentDeps) (q : String) (t : Rat),
      ((afterTavily deps q).1).results.isEmpty = true →
      (deps.serp_tool = none →
        (intelligent_search "intelligent" deps q t).result =
          Except.error (noResultsError deps)) ∧
      (∀ sb senv, deps.serp_tool = some sb →
        SerpSearchTool.search q sb deps.serp_elapsed = Except.ok senv →
        senv.results = [] →
        (intelligent_search "intelligent" deps q t).result =
          Except.error (noResultsError deps))) ∧
    (∀ deps : ResearchAgentDeps,
      (deps.tavily_tool = none → deps.serp_tool = none →
        noResultsError deps =
          ⟨"No search providers configured", none, none⟩) ∧
      (∀ tb, deps.tavily_tool = some tb → deps.serp_tool = none →
        noResultsError deps =
          ⟨"All configured providers failed: Tavily", none, none⟩) ∧
      (∀ sb, deps.tavily_tool = none → deps.serp_tool = some sb →
        noResultsError deps =
          ⟨"All configured providers failed: SerpAPI", none, none⟩) ∧
      (∀ tb sb, deps.tavily_tool = some tb → deps.serp_tool = some sb →
        noResultsError deps =
          ⟨"All configured providers failed: Tavily, SerpAPI", none, none⟩)) ∧
    ("No search providers configured" ≠
        "All configured providers failed: Tavily" ∧
      "No search providers configured" ≠
        "All configured providers failed: SerpAPI" ∧
      "No search providers configured" ≠
        "All configured providers failed: Tavily, SerpAPI" ∧
      "No search providers configured" ≠
        "All search providers failed: Tavily and SerpAPI errors") := by
  refine ⟨?_, ?_, ?_, by decide, by decide, by decide, by decide⟩
  · intro deps q t sb m hS hss hemp
    have hbr : intelligentBranch deps q =
        serpFallback deps q (afterTavily deps q).2 := by
      simp only [intelligentBranch, if_pos hemp]
    rw [intelligent_search_eq_intelligent "intelligent" (by decide) (by decide)]
    refine finalizeRun_error _ _ _ ?_
    rw [hbr]
    simp [serpFallback, hS, hss]
  · intro deps q t hemp
    have hbr : intelligentBranch deps q =
        serpFallback deps q (afterTavily deps q).2 := by
      simp only [intelligentBranch, if_pos hemp]
    constructor
    · intro hS
      rw [intelligent_search_eq_intelligent "intelligent" (by decide) (by decide)]
      refine finalizeRun_error _ _ _ ?_
      rw [hbr]
      simp [serpFallback, hS]
    · intro sb senv hS hss hnil
      rw [intelligent_search_eq_intelligent "intelligent" (by decide) (by decide)]
      refine finalizeRun_error _ _ _ ?_
      rw [hbr]
      simp [serpFallback, hS, hss, hnil]
  · intro deps
    refine ⟨?_, ?_, ?_, ?_⟩
    · intro h1 h2
      simp only [noResultsError, availableProviders, h1, h2]
      rfl
    · intro tb h1 h2
      simp only [noResultsError, availableProviders, h1, h2]
      rfl
    · intro sb h1 h2
      simp only [noResultsError, availableProviders, h1, h2]
      rfl
    · intro tb sb h1 h2
      simp only [noResultsError, availableProviders, h1, h2]
      rfl

/-- Concrete fixture: both providers configured, both return empty result
lists without raising. -/
def bothEmptyDeps : ResearchAgentDeps :=
  { tavily_tool := some (Except.ok ⟨[], none⟩)
    serp_tool := some (Except.ok ⟨none, []⟩)
    tavily_elapsed := 0
    serp_elapsed := 0 }

/-- Witness for the amended C2: both providers configured and empty, the
error enumerates exactly the two configured providers. -/
theorem C2_amended_exhaustion_messages_witness :
    (intelligent_search "intelligent" bothEmptyDeps "q" 0).result =
      Except.error (noResultsError bothEmptyDeps) ∧
    noResultsError bothEmptyDeps =
      ⟨"All configured providers failed: Tavily, SerpAPI", none, none⟩ :=
  ⟨(C2_amended_exhaustion_messages.2.1 bothEmptyDeps "q" 0 (by rfl)).2
      (Except.ok ⟨none, []⟩)
      { query := "q"
        results := []
        total_results := 0
        search_time := 0
        providers_used := [SearchProvider.serp]
        ai_summary := none }
      (by rfl) (by rfl) rfl,
   (C2_amended_exhaustion_messages.2.2.1 bothEmptyDeps).2.2.2
      (Except.ok ⟨[], none⟩) (Except.ok ⟨none, []⟩) (by rfl) (by rfl)⟩

/-! ### C5 -/

/-- A concrete healthy raw Tavily result. -/
def tavilyRawT : TavilyRawItem :=
  { title := some "T"
    url := some "http://tav.example/a"
    content := some "c"
    score := some 1
    published_date := none
    raw_content := none }

/-- Concrete fixture: Tavily configured and healthy with one result. -/
def tavilyUpDeps : ResearchAgentDeps :=
  { tavily_tool := some (Except.ok ⟨[tavilyRawT], some "ans"⟩)
    serp_tool := none
    tavily_elapsed := 0
    serp_elapsed := 0 }

/-- C5 counterexample: search succeeds (one Tavily result) but the
summarization call raises — `run_research_agent` returns a single failed
`AgentResponse` with `data = None`; the caller does not receive any
successful response for the search step. -/
theorem C5_counterexample_single_failed_response :
    run_research_agent "intelligent" tavilyUpDeps "q" true
        (Except.error "LLM boom") 0 0 =
      { success := false
        data := none
        message := "Research failed due to unexpected error"
        error := some "Research agent failed: LLM boom"
        execution_time := 0
        tokens_used := none } := rfl

/-- C5 (amended): when search succeeded but summarization raises, the
caller receives one failed `AgentResponse` (no search payload) whose
message differs from the search-failure message, so the two failure modes
remain distinguishable. -/
theorem C5_amended_distinct_failure_messages :
    (∀ (strategy : String) (deps : ResearchAgentDeps) (q : String)
        (ot t : Rat) (env : SearchResults) (m : String),
      (intelligent_search strategy deps q ot).result = Except.ok env →
      env.results ≠ [] →
      run_research_agent strategy deps q true (Except.error m) ot t =
        { success := false
          data := none
          message := "Research failed due to unexpected error"
          error := some ("Research agent failed: " ++ m)
          execution_time := t
          tokens_used := none }) ∧
    (∀ (strategy : String) (deps : ResearchAgentDeps) (q : String)
        (ot t : Rat) (e : SearchError) (cs : Bool)
        (ao : Except String (String × Option Nat)),
      (intelligent_search strategy deps q ot).result = Except.error e →
      run_research_agent strategy deps q cs ao ot t =
        { success := false
          data := none
          message := "Research failed due to search error"
          error := some ("Search failed: " ++ e.message)
          execution_time := t
          tokens_used := none }) ∧
    "Research failed due to unexpected error" ≠
      "Research failed due to search error" := by
  refine ⟨?_, ?_, by decide⟩
  · intro strategy deps q ot t env m h hne
    have hie : env.results.isEmpty = false :=
      Bool.eq_false_iff.mpr (fun hc => hne (List.isEmpty_iff.mp hc))
    simp [run_research_agent, h, hie]
  · intro strategy deps q ot t e cs ao h
    simp [run_research_agent, h]

/-- Witness for the amended C5 at concrete inputs: healthy search with a
raising summarizer, and a failing search. -/
theorem C5_amended_distinct_failure_messages_witness :
    run_research_agent "intelligent" tavilyUpDeps "q" true
        (Except.error "LLM boom") 0 0 =
      { success := false
        data := none
        message := "Research failed due to unexpected error"
        error := some "Research agent failed: LLM boom"
        execution_time := 0
        tokens_used := none } ∧
    run_research_agent "intelligent" noProviderDeps "q" true
        (Except.error "LLM boom") 0 0 =
      { success := false
        data := none
        message := "Research failed due to search error"
        error := some "Search failed: No search providers configured"
        execution_time := 0
        tokens_used := none } :=
  ⟨C5_amended_distinct_failure_messages.1 "intelligent" tavilyUpDeps "q" 0 0
      { query := "q"
        results := [SearchResult.tavilyR
          { title := "T"
            url := "http://tav.example/a"
            content := "c"
            score := 1
            published_date := none
            raw_content := none
            provider := SearchProvider.tavily }]
        total_results := 1
        search_time := 0
        providers_used := [SearchProvider.tavily]
        ai_summary := some "ans" }
      "LLM boom" (by rfl) (by decide),
   C5_amended_distinct_failure_messages.2.1 "intelligent" noProviderDeps "q" 0 0
      ⟨"No search providers configured", none, none⟩ true
      (Except.error "LLM boom") (by rfl)⟩

/-! ### C6 -/

/-- C6: with an email body generated (the agent produced a draft whose
`draft_id` is unset, its default) and the Gmail draft-creation call
raising, `run_email_agent` still returns `success = true` with the draft
as payload and `draft_id` still unset. -/
theorem C6_draft_failure_graceful (d : EmailDraft) (toks : Option Nat)
    (m : String) (t : Rat) (hid : d.draft_id = none) :
    run_email_agent (Except.ok (some d, toks)) (Except.error m) t =
      { success := true
        data := some d
        message := "Email draft created successfully"
        error := none
        execution_time := t
        tokens_used := toks } ∧
    d.draft_id = none :=
  ⟨rfl, hid⟩

/-- A concrete generated draft, `draft_id` unset. -/
def draftT : EmailDraft :=
  { recipients := ["colleague@example.com"]
    subject := "S"
    body := "B"
    cc := none
    bcc := none
    attachments := none
    draft_id := none }

/-- Witness for C6 at a concrete draft and failing Gmail call. -/
theorem C6_draft_failure_graceful_witness :
    run_email_agent (Except.ok (some draftT, some 42))
        (Except.error "Gmail API error") 0 =
      { success := true
        data := some draftT
        message := "Email draft created successfully"
        error := none
        execution_time := 0
        tokens_used := some 42 } ∧
    draftT.draft_id = none :=
  C6_draft_failure_graceful draftT (some 42) "Gmail API error" 0 rfl

/-! ### C7 -/

/-- C7 counterexample: the SerpAPI client also sets `ai_summary` — for
one organic result it carries the locally generated summary — so
envelopes produced by the general client do not lack `ai_summary`. -/
theorem C7_counterexample_serp_sets_ai_summary :
    SerpSearchTool.search "q" (Except.ok ⟨none, [serpRawT]⟩) 0 =
      Except.ok serpEnvT ∧
    serpEnvT.ai_summary =
      some "Found 1 search results. Top sources: http://serp.example/a" :=
  ⟨rfl, rfl⟩

/-- C7 (amended): the Tavily client surfaces the backend's free-text
`answer` as `ai_summary` exactly when the caller requested it
(`include_answer`); the SerpAPI client never surfaces a backend answer
but sets `ai_summary` to a locally generated summary of its own converted
results whenever they are non-empty, and to `None` when they are empty. -/
theorem C7_amended_ai_summary_sources :
    (∀ (q : String) (inc : Bool) (data : TavilyResponse) (el : Rat)
        (env : SearchResults),
      TavilySearchTool.search q inc (Except.ok data) el = Except.ok env →
      env.ai_summary = if inc then data.answer else none) ∧
    (∀ (q : String) (raws : List SerpRawItem) (el : Rat)
        (env : SearchResults),
      SerpSearchTool.search q (Except.ok ⟨none, raws⟩) el = Except.ok env →
      (raws = [] → env.ai_summary = none) ∧
      (raws ≠ [] → env.ai_summary =
        some (SerpSearchTool.generateSummary
          (raws.enum.map (fun p => SerpSearchTool.toResult p.1 p.2))))) := by
  constructor
  · intro q inc data el env h
    simp only [TavilySearchTool.search] at h
    obtain rfl := (Except.ok.injEq _ _).mp h
    rfl
  · intro q raws el env h
    simp only [SerpSearchTool.search] at h
    obtain rfl := (Except.ok.injEq _ _).mp h
    constructor
    · rintro rfl
      rfl
    · intro hne
      rcases raws with _ | ⟨a, l⟩
      · exact absurd rfl hne
      · rfl

/-- The envelope the Tavily client builds when the caller did not request
an answer. -/
def tavilyEnvNoAns : SearchResults :=
  { query := "q"
    results := []
    total_results := 0
    search_time := 0
    providers_used := [SearchProvider.tavily]
    ai_summary := none }

/-- Witness for the amended C7 at concrete inputs: an unrequested Tavily
answer is dropped, and a one-result SerpAPI envelope carries the locally
generated summary. -/
theorem C7_amended_ai_summary_sources_witness :
    tavilyEnvNoAns.ai_summary =
      (if false then (some "ans" : Option String) else none) ∧
    serpEnvT.ai_summary =
      some (SerpSearchTool.generateSummary
        ([serpRawT].enum.map (fun p => SerpSearchTool.toResult p.1 p.2))) :=
  ⟨C7_amended_ai_summary_sources.1 "q" false ⟨[], some "ans"⟩ 0 tavilyEnvNoAns
      (by rfl),
   (C7_amended_ai_summary_sources.2 "q" [serpRawT] 0 serpEnvT (by rfl)).2
      (by decide)⟩

/-! ### C8 -/

/-- Mapping a function of the second component over an enumeration is
mapping it over the list itself. -/
theorem enum_map_snd_comp {α β : Type} (l : List α) (f : α → β) :
    l.enum.map (fun p => f p.2) = l.map f := by
  have h : (fun p : Nat × α => f p.2) = f ∘ Prod.snd := rfl
  rw [h, ← List.map_map, List.enum_map_snd]

/-- C8: an envelope built by either provider client from `N` raw items
has `total_results = N`, `N` results, and preserves the provider-returned
order (the projected url and title sequences coincide with the raw input
sequences). -/
theorem C8_envelope_count_and_order :
    (∀ (q : String) (inc : Bool) (raws : List TavilyRawItem)
        (ans : Option String) (el : Rat) (env : SearchResults),
      TavilySearchTool.search q inc (Except.ok ⟨raws, ans⟩) el =
        Except.ok env →
      env.total_results = raws.length ∧
      env.results.length = raws.length ∧
      env.results.map SearchResult.url = raws.map (fun r => r.url.getD "") ∧
      env.results.map SearchResult.title =
        raws.map (fun r => r.title.getD "")) ∧
    (∀ (q : String) (raws : List SerpRawItem) (el : Rat)
        (env : SearchResults),
      SerpSearchTool.search q (Except.ok ⟨none, raws⟩) el = Except.ok env →
      env.total_results = raws.length ∧
      env.results.length = raws.length ∧
      env.results.map SearchResult.url = raws.map (fun r => r.link.getD "") ∧
      env.results.map SearchResult.title =
        raws.map (fun r => r.title.getD "")) := by
  constructor
  · intro q inc raws ans el env h
    simp only [TavilySearchTool.search] at h
    obtain rfl := (Except.ok.injEq _ _).mp h
    refine ⟨by simp, by simp, ?_, ?_⟩
    · simp [List.map_map, Function.comp, SearchResult.url,
        TavilySearchTool.toResult]
    · simp [List.map_map, Function.comp, SearchResult.title,
        TavilySearchTool.toResult]
  · intro q raws el env h
    simp only [SerpSearchTool.search] at h
    obtain rfl := (Except.ok.injEq _ _).mp h
    refine ⟨by simp, by simp, ?_, ?_⟩
    · simp only [List.map_map]
      have hc : (SearchResult.url ∘ SearchResult.serpR ∘
          fun p : Nat × SerpRawItem => SerpSearchTool.toResult p.1 p.2) =
          (fun p : Nat × SerpRawItem => p.2.link.getD "") := rfl
      rw [hc]
      exact enum_map_snd_comp raws (fun r => r.link.getD "")
    · simp only [List.map_map]
      have hc : (SearchResult.title ∘ SearchResult.serpR ∘
          fun p : Nat × SerpRawItem => SerpSearchTool.toResult p.1 p.2) =
          (fun p : Nat × SerpRawItem => p.2.title.getD "") := rfl
      rw [hc]
      exact enum_map_snd_comp raws (fun r => r.title.getD "")

/-- A second concrete raw Tavily item, with all optional fields absent. -/
def tavilyRawU : TavilyRawItem :=
  { title := some "U"
    url := some "http://tav.example/b"
    content := none
    score := none
    published_date := none
    raw_content := none }

/-- A second concrete raw SerpAPI item, with most fields absent. -/
def serpRawV : SerpRawItem :=
  { title := some "V"
    link := some "http://serp.example/b"
    snippet := none
    position := none
    displayed_link := none
    cached_page_link := none }

/-- The envelope the Tavily client builds from `[tavilyRawT, tavilyRawU]`. -/
def tavilyEnv2 : SearchResults :=
  { query := "q"
    results :=
      [SearchResult.tavilyR
        { title := "T"
          url := "http://tav.example/a"
          content := "c"
          score := 1
          published_date := none
          raw_content := none
          provider := SearchProvider.tavily },
       SearchResult.tavilyR
        { title := "U"
          url := "http://tav.example/b"
          content := ""
          score := 0
          published_date := none
          raw_content := none
          provider := SearchProvider.tavily }]
    total_results := 2
    search_time := 0
    providers_used := [SearchProvider.tavily]
    ai_summary := none }

/-- The envelope the SerpAPI client builds from `[serpRawT, serpRawV]`. -/
def serpEnv2 : SearchResults :=
  { query := "q"
    results :=
      [SearchResult.serpR
        { title := "T"
          url := "http://serp.example/a"
          snippet := "s"
          position := 1
          displayed_link := none
          cached_page_link := none
          provider := SearchProvider.serp },
       SearchResult.serpR
        { title := "V"
          url := "http://serp.example/b"
          snippet := ""
          position := 2
          displayed_link := none
          cached_page_link := none
          provider := SearchProvider.serp }]
    total_results := 2
    search_time := 0
    providers_used := [SearchProvider.serp]
    ai_summary :=
      some "Found 2 search results. Top sources: http://serp.example/a, http://serp.example/b" }

/-- Witness for C8 at two-element concrete inputs for each client. -/
theorem C8_envelope_count_and_order_witness :
    (tavilyEnv2.total_results = [tavilyRawT, tavilyRawU].length ∧
      tavilyEnv2.results.length = [tavilyRawT, tavilyRawU].length ∧
      tavilyEnv2.results.map SearchResult.url =
        [tavilyRawT, tavilyRawU].map (fun r => r.url.getD "") ∧
      tavilyEnv2.results.map SearchResult.title =
        [tavilyRawT, tavilyRawU].map (fun r => r.title.getD "")) ∧
    (serpEnv2.total_results = [serpRawT, serpRawV].length ∧
      serpEnv2.results.length = [serpRawT, serpRawV].length ∧
      serpEnv2.results.map SearchResult.url =
        [serpRawT, serpRawV].map (fun r => r.link.getD "") ∧
      serpEnv2.results.map SearchResult.title =
        [serpRawT, serpRawV].map (fun r => r.title.getD "")) :=
  ⟨C8_envelope_count_and_order.1 "q" true [tavilyRawT, tavilyRawU] none 0
      tavilyEnv2 (by rfl),
   C8_envelope_count_and_order.2 "q" [serpRawT, serpRawV] 0 serpEnv2 (by rfl)⟩

end Pipeline
